import Mathlib

/-!
Verification of `fetch_creds.py`: a credential-loading shim that reads a
tabular (CSV) credentials file and constructs client handles (AWS key pair,
RDS parameter tuple, S3 bucket handle, Oracle cursor, SQLAlchemy engine).

The embedding follows the source line by line.  Python tuples of strings are
modelled as `List String`; Python exceptions as `Except PyError`; the calls
into the external client libraries (boto, cx_Oracle, sqlalchemy) and the file
read performed by `pandas.read_csv` are recorded in an `Action` trace returned
alongside the result, so that ordering properties (parse-then-connect) and
statelessness properties are statable.
-/

namespace FetchCreds

/-- Modelled from the spec: the tabular-file-parsing library (pandas) reads a
delimited text file into column-addressable rows.  A parsed credentials file
is its header row plus its data rows, every cell carried as literal text. -/
structure DataFrame where
  header : List String
  rows : List (List String)
  deriving DecidableEq, Repr

/-- Modelled from the spec: the operating-system view of files.  A path maps
to the parsed tabular content of the file when it denotes a readable
delimited text file, and to `none` otherwise. -/
def FileSystem : Type := String → Option DataFrame

/-- Python-level failures surfaced by the module: an unreadable path
(`IOError` from `pandas.read_csv`), a missing column header (`KeyError` from
`df[col]`), a missing first data row (the `IndexError`-equivalent raised by
`series[0]` on an empty frame), and a tuple-unpacking mismatch
(`ValueError`). -/
inductive PyError where
  | fileAccessError (path : String)
  | keyError (key : String)
  | indexError
  | valueError
  deriving DecidableEq, Repr

/-- Whether an error is the field-not-found condition (a `KeyError` naming a
column header). -/
def PyError.isKeyError : PyError → Bool
  | .keyError _ => true
  | _ => false

/-- An Oracle data-source descriptor, as built by `cx_Oracle.makedsn(host,
port, sid)`: a connection descriptor holding host, port and SID. -/
structure Dsn where
  host : String
  port : String
  sid : String
  deriving DecidableEq, Repr

/-- An authenticated S3 session, as opened by `boto.connect_s3(id, secret,
calling_format=cf)`: it captures the key pair and the addressing mode. -/
structure S3Connection where
  access_key_id : String
  secret_access_key : String
  calling_format : String
  deriving DecidableEq, Repr

/-- A boto S3 bucket handle: the session it was resolved on plus the bucket
name. -/
structure Bucket where
  conn : S3Connection
  name : String
  deriving DecidableEq, Repr

/-- A cx_Oracle connection: user, password and the DSN descriptor. -/
structure OracleConnection where
  user : String
  passwd : String
  dsn : Dsn
  deriving DecidableEq, Repr

/-- A cx_Oracle cursor, bound to its parent connection. -/
structure Cursor where
  conn : OracleConnection
  deriving DecidableEq, Repr

/-- A SQLAlchemy engine handle, constructed from a connection-string URI. -/
structure Engine where
  uri : String
  deriving DecidableEq, Repr

/-- Observable actions performed by the module: the local file read done by
`pandas.read_csv`, and the calls into the external client libraries. -/
inductive Action where
  | fileRead (path : String)
  | s3Connect (access_key_id secret_access_key calling_format : String)
  | s3GetBucket (bucket_name : String)
  | oracleMakeDsn (host port sid : String)
  | oracleConnect (user passwd : String) (dsn : Dsn)
  | cursorAcquire
  | createEngine (uri : String)
  deriving DecidableEq, Repr

/-- Which actions touch the network.  Reading the local credentials file and
building a DSN descriptor string are local; every call that opens or uses a
session against a remote service is a network action (engine construction is
counted too: it is the external call that owns any eventual connection). -/
def Action.isNetwork : Action → Bool
  | .fileRead _ => false
  | .oracleMakeDsn _ _ _ => false
  | _ => true

/-- Embeds `pandas.read_csv(creds_path)`: attempt to read the file at the
path, recording the read attempt; fail with the file-access error when the
path does not denote a readable file. -/
def readCsv (fs : FileSystem) (path : String) :
    Except PyError DataFrame × List Action :=
  match fs path with
  | none => (.error (.fileAccessError path), [.fileRead path])
  | some df => (.ok df, [.fileRead path])

/-- Embeds `df[col][0]`: `df[col]` raises `KeyError` when `col` is not a
column header; indexing the resulting series at label `0` yields the first
data row's cell, and raises the `IndexError`-equivalent when there is no
data row. -/
def getCell (df : DataFrame) (col : String) : Except PyError String :=
  if col ∈ df.header then
    match df.rows with
    | [] => .error .indexError
    | r :: _ => .ok (r.getD (df.header.indexOf col) "")
  else .error (.keyError col)

/-- The field extraction of `return_aws_keys` after the file is read: look up
`ACCESS_KEY_ID` then `SECRET_ACCESS_KEY` in the first data row and return the
two values as a tuple (the trailing comma in the Python return statement
still builds a two-element tuple). -/
def aws_keys_of_df (df : DataFrame) : Except PyError (List String) := do
  let aws_access_key_id ← getCell df "ACCESS_KEY_ID"
  let aws_secret_access_key ← getCell df "SECRET_ACCESS_KEY"
  return [aws_access_key_id, aws_secret_access_key]

/-- Embeds `return_aws_keys(creds_path)`. -/
def return_aws_keys (fs : FileSystem) (creds_path : String) :
    Except PyError (List String) × List Action :=
  match readCsv fs creds_path with
  | (.error e, t) => (.error e, t)
  | (.ok df, t) => (aws_keys_of_df df, t)

/-- The field extraction of `return_rds_vars` after the file is read: look up
`DB_USER`, `DB_PASSWD`, `DB_HOST`, `DB_PORT`, `DB_SID` in that order in the
first data row and return the five values as a tuple. -/
def rds_vars_of_df (df : DataFrame) : Except PyError (List String) := do
  let db_user ← getCell df "DB_USER"
  let db_passwd ← getCell df "DB_PASSWD"
  let db_host ← getCell df "DB_HOST"
  let db_port ← getCell df "DB_PORT"
  let db_sid ← getCell df "DB_SID"
  return [db_user, db_passwd, db_host, db_port, db_sid]

/-- Embeds `return_rds_vars(creds_path)`. -/
def return_rds_vars (fs : FileSystem) (creds_path : String) :
    Except PyError (List String) × List Action :=
  match readCsv fs creds_path with
  | (.error e, t) => (.error e, t)
  | (.ok df, t) => (rds_vars_of_df df, t)

/-- Embeds `return_bucket(creds_path, bucket_name)`: get the AWS keys via
`return_aws_keys`, open an S3 connection with `OrdinaryCallingFormat`
(path-style addressing), and fetch the named bucket.  A failed extraction
propagates before any network call; unpacking the key tuple into two
variables raises `ValueError` if its length were not two. -/
def return_bucket (fs : FileSystem) (creds_path bucket_name : String) :
    Except PyError Bucket × List Action :=
  match return_aws_keys fs creds_path with
  | (.error e, t) => (.error e, t)
  | (.ok [aws_access_key_id, aws_secret_access_key], t) =>
      let cf := "OrdinaryCallingFormat"
      let s3_conn : S3Connection :=
        { access_key_id := aws_access_key_id,
          secret_access_key := aws_secret_access_key,
          calling_format := cf }
      let bucket : Bucket := { conn := s3_conn, name := bucket_name }
      (.ok bucket,
        t ++ [.s3Connect aws_access_key_id aws_secret_access_key cf,
              .s3GetBucket bucket_name])
  | (.ok _, t) => (.error .valueError, t)

/-- Embeds `return_cursor(creds_path)`: get the DB variables via
`return_rds_vars`, build the DSN descriptor locally, connect, and acquire a
cursor on the connection. -/
def return_cursor (fs : FileSystem) (creds_path : String) :
    Except PyError Cursor × List Action :=
  match return_rds_vars fs creds_path with
  | (.error e, t) => (.error e, t)
  | (.ok [user, passwd, host, port, sid], t) =>
      let dsn : Dsn := { host := host, port := port, sid := sid }
      let conn : OracleConnection := { user := user, passwd := passwd, dsn := dsn }
      let cursor : Cursor := { conn := conn }
      (.ok cursor,
        t ++ [.oracleMakeDsn host port sid, .oracleConnect user passwd dsn,
              .cursorAcquire])
  | (.ok _, t) => (.error .valueError, t)

/-- Embeds `sql_alchemy_engine(creds_path)`: get the DB variables via
`return_rds_vars`, build the connection string
`'oracle+cx_oracle://' + ':'.join([user, passwd]) + '@' + host + '/' + sid`
(the extracted port is not used), and create the engine from it. -/
def sql_alchemy_engine (fs : FileSystem) (creds_path : String) :
    Except PyError Engine × List Action :=
  match return_rds_vars fs creds_path with
  | (.error e, t) => (.error e, t)
  | (.ok [user, passwd, host, _port, sid], t) =>
      let engine_str :=
        "oracle+cx_oracle://" ++ String.intercalate ":" [user, passwd] ++
          "@" ++ host ++ "/" ++ sid
      let engine : Engine := { uri := engine_str }
      (.ok engine, t ++ [.createEngine engine_str])
  | (.ok _, t) => (.error .valueError, t)

/-- Two independent sequential calls of the same operation: the pair of
results together with the concatenated action trace. -/
def callTwice {α : Type} (f : Unit → Except PyError α × List Action) :
    (Except PyError α × Except PyError α) × List Action :=
  (((f ()).fst, (f ()).fst), (f ()).snd ++ (f ()).snd)

/-- The Key Extractor's action trace is always exactly the one file read. -/
theorem return_aws_keys_snd (fs : FileSystem) (p : String) :
    (return_aws_keys fs p).snd = [.fileRead p] := by
  unfold return_aws_keys readCsv
  cases fs p <;> rfl

/-- The Database Parameter Extractor's action trace is always exactly the one
file read. -/
theorem return_rds_vars_snd (fs : FileSystem) (p : String) :
    (return_rds_vars fs p).snd = [.fileRead p] := by
  unfold return_rds_vars readCsv
  cases fs p <;> rfl

/-- A successful key extraction always yields a two-element tuple whose
components are exactly the `ACCESS_KEY_ID` and `SECRET_ACCESS_KEY` cells of
the first data row. -/
theorem aws_keys_of_df_ok (df : DataFrame) (l : List String)
    (h : aws_keys_of_df df = .ok l) :
    ∃ a sk, l = [a, sk] ∧ getCell df "ACCESS_KEY_ID" = .ok a ∧
      getCell df "SECRET_ACCESS_KEY" = .ok sk := by
  unfold aws_keys_of_df at h
  cases h1 : getCell df "ACCESS_KEY_ID" with
  | error e => rw [h1] at h; simp [Bind.bind, Except.bind] at h
  | ok a =>
    cases h2 : getCell df "SECRET_ACCESS_KEY" with
    | error e => rw [h1, h2] at h; simp [Bind.bind, Except.bind] at h
    | ok sk =>
      rw [h1, h2] at h
      simp [Bind.bind, Except.bind, Pure.pure, Except.pure] at h
      exact ⟨a, sk, h.symm, rfl, rfl⟩

/-- A successful DB-parameter extraction always yields a five-element tuple
whose components are exactly the `DB_USER`, `DB_PASSWD`, `DB_HOST`,
`DB_PORT`, `DB_SID` cells of the first data row. -/
theorem rds_vars_of_df_ok (df : DataFrame) (l : List String)
    (h : rds_vars_of_df df = .ok l) :
    ∃ u pw ho prt sid, l = [u, pw, ho, prt, sid] ∧
      getCell df "DB_USER" = .ok u ∧ getCell df "DB_PASSWD" = .ok pw ∧
      getCell df "DB_HOST" = .ok ho ∧ getCell df "DB_PORT" = .ok prt ∧
      getCell df "DB_SID" = .ok sid := by
  unfold rds_vars_of_df at h
  cases h1 : getCell df "DB_USER" with
  | error e => rw [h1] at h; simp [Bind.bind, Except.bind] at h
  | ok u =>
    cases h2 : getCell df "DB_PASSWD" with
    | error e => rw [h1, h2] at h; simp [Bind.bind, Except.bind] at h
    | ok pw =>
      cases h3 : getCell df "DB_HOST" with
      | error e => rw [h1, h2, h3] at h; simp [Bind.bind, Except.bind] at h
      | ok ho =>
        cases h4 : getCell df "DB_PORT" with
        | error e => rw [h1, h2, h3, h4] at h; simp [Bind.bind, Except.bind] at h
        | ok prt =>
          cases h5 : getCell df "DB_SID" with
          | error e => rw [h1, h2, h3, h4, h5] at h; simp [Bind.bind, Except.bind] at h
          | ok sid =>
            rw [h1, h2, h3, h4, h5] at h
            simp [Bind.bind, Except.bind, Pure.pure, Except.pure] at h
            exact ⟨u, pw, ho, prt, sid, h.symm, rfl, rfl, rfl, rfl, rfl⟩

/-- Characterization of a successful run of the Key Extractor. -/
theorem return_aws_keys_ok (fs : FileSystem) (p : String) (l : List String)
    (h : (return_aws_keys fs p).fst = .ok l) :
    ∃ df a sk, fs p = some df ∧ l = [a, sk] ∧
      getCell df "ACCESS_KEY_ID" = .ok a ∧
      getCell df "SECRET_ACCESS_KEY" = .ok sk := by
  unfold return_aws_keys readCsv at h
  cases hfs : fs p with
  | none => rw [hfs] at h; simp at h
  | some df =>
    rw [hfs] at h
    simp only at h
    obtain ⟨a, sk, hl, h1, h2⟩ := aws_keys_of_df_ok df l h
    exact ⟨df, a, sk, rfl, hl, h1, h2⟩

/-- Characterization of a successful run of the Database Parameter
Extractor. -/
theorem return_rds_vars_ok (fs : FileSystem) (p : String) (l : List String)
    (h : (return_rds_vars fs p).fst = .ok l) :
    ∃ df u pw ho prt sid, fs p = some df ∧ l = [u, pw, ho, prt, sid] ∧
      getCell df "DB_USER" = .ok u ∧ getCell df "DB_PASSWD" = .ok pw ∧
      getCell df "DB_HOST" = .ok ho ∧ getCell df "DB_PORT" = .ok prt ∧
      getCell df "DB_SID" = .ok sid := by
  unfold return_rds_vars readCsv at h
  cases hfs : fs p with
  | none => rw [hfs] at h; simp at h
  | some df =>
    rw [hfs] at h
    simp only at h
    obtain ⟨u, pw, ho, prt, sid, hl, h1, h2, h3, h4, h5⟩ := rds_vars_of_df_ok df l h
    exact ⟨df, u, pw, ho, prt, sid, rfl, hl, h1, h2, h3, h4, h5⟩

/-- Full characterization of the Bucket Resolver: either key extraction fails
and the failure propagates with no further action, or it succeeds with a key
pair and the resolver connects path-style and fetches the named bucket. -/
theorem return_bucket_eq (fs : FileSystem) (p b : String) :
    (∃ e, return_aws_keys fs p = (.error e, [.fileRead p]) ∧
       return_bucket fs p b = (.error e, [.fileRead p])) ∨
    (∃ a sk, return_aws_keys fs p = (.ok [a, sk], [.fileRead p]) ∧
       return_bucket fs p b =
         (.ok { conn := { access_key_id := a, secret_access_key := sk,
                          calling_format := "OrdinaryCallingFormat" },
                name := b },
          [.fileRead p, .s3Connect a sk "OrdinaryCallingFormat",
           .s3GetBucket b])) := by
  have hsnd := return_aws_keys_snd fs p
  rcases hk : return_aws_keys fs p with ⟨r, t⟩
  rw [hk] at hsnd
  simp only at hsnd
  subst hsnd
  cases r with
  | error e =>
    left
    exact ⟨e, rfl, by unfold return_bucket; rw [hk]⟩
  | ok l =>
    right
    have : (return_aws_keys fs p).fst = .ok l := by rw [hk]
    obtain ⟨df, a, sk, _, hl, _, _⟩ := return_aws_keys_ok fs p l this
    subst hl
    exact ⟨a, sk, rfl, by unfold return_bucket; rw [hk]; rfl⟩

/-- Full characterization of the Cursor Resolver: either parameter extraction
fails and the failure propagates with no further action, or it succeeds and
the resolver builds the DSN, connects, and acquires a cursor. -/
theorem return_cursor_eq (fs : FileSystem) (p : String) :
    (∃ e, return_rds_vars fs p = (.error e, [.fileRead p]) ∧
       return_cursor fs p = (.error e, [.fileRead p])) ∨
    (∃ u pw ho prt sid,
       return_rds_vars fs p = (.ok [u, pw, ho, prt, sid], [.fileRead p]) ∧
       return_cursor fs p =
         (.ok { conn := { user := u, passwd := pw,
                          dsn := { host := ho, port := prt, sid := sid } } },
          [.fileRead p, .oracleMakeDsn ho prt sid,
           .oracleConnect u pw { host := ho, port := prt, sid := sid },
           .cursorAcquire])) := by
  have hsnd := return_rds_vars_snd fs p
  rcases hk : return_rds_vars fs p with ⟨r, t⟩
  rw [hk] at hsnd
  simp only at hsnd
  subst hsnd
  cases r with
  | error e =>
    left
    exact ⟨e, rfl, by unfold return_cursor; rw [hk]⟩
  | ok l =>
    right
    have : (return_rds_vars fs p).fst = .ok l := by rw [hk]
    obtain ⟨df, u, pw, ho, prt, sid, _, hl, _⟩ := return_rds_vars_ok fs p l this
    subst hl
    exact ⟨u, pw, ho, prt, sid, rfl, by unfold return_cursor; rw [hk]; rfl⟩

/-- Full characterization of the Engine Resolver: either parameter extraction
fails and the failure propagates with no further action, or it succeeds and
the resolver creates an engine from the port-free connection string. -/
theorem sql_alchemy_engine_eq (fs : FileSystem) (p : String) :
    (∃ e, return_rds_vars fs p = (.error e, [.fileRead p]) ∧
       sql_alchemy_engine fs p = (.error e, [.fileRead p])) ∨
    (∃ u pw ho prt sid,
       return_rds_vars fs p = (.ok [u, pw, ho, prt, sid], [.fileRead p]) ∧
       sql_alchemy_engine fs p =
         (.ok { uri := "oracle+cx_oracle://" ++ u ++ ":" ++ pw ++
                  "@" ++ ho ++ "/" ++ sid },
          [.fileRead p,
           .createEngine ("oracle+cx_oracle://" ++ u ++ ":" ++ pw ++
             "@" ++ ho ++ "/" ++ sid)])) := by
  have hsnd := return_rds_vars_snd fs p
  rcases hk : return_rds_vars fs p with ⟨r, t⟩
  rw [hk] at hsnd
  simp only at hsnd
  subst hsnd
  cases r with
  | error e =>
    left
    exact ⟨e, rfl, by unfold sql_alchemy_engine; rw [hk]⟩
  | ok l =>
    right
    have : (return_rds_vars fs p).fst = .ok l := by rw [hk]
    obtain ⟨df, u, pw, ho, prt, sid, _, hl, _⟩ := return_rds_vars_ok fs p l this
    subst hl
    refine ⟨u, pw, ho, prt, sid, rfl, ?_⟩
    unfold sql_alchemy_engine
    rw [hk]
    rfl

/-- A sample parsed credentials file for the AWS key columns; the secret
carries leading and trailing spaces to exhibit the absence of trimming. -/
def sampleAwsDf : DataFrame :=
  { header := ["ACCESS_KEY_ID", "SECRET_ACCESS_KEY"],
    rows := [["AKIA_TEST", " secretXYZ "]] }

/-- A sample parsed credentials file for the five RDS columns, with a second
data row that must be ignored. -/
def sampleRdsDf : DataFrame :=
  { header := ["DB_USER", "DB_PASSWD", "DB_HOST", "DB_PORT", "DB_SID"],
    rows := [["User", "Pass Wd", "db.example.com", "1521", "ORCL"],
             ["u2", "p2", "h2", "2", "s2"]] }

/-- A sample file system exposing the two sample credentials files. -/
def sampleFs : FileSystem := fun p =>
  if p = "aws_creds.csv" then some sampleAwsDf
  else if p = "rds_creds.csv" then some sampleRdsDf
  else none

/-- C1: for every credentials file whose first data row populates all
required columns, each extractor returns exactly the literal cell strings of
that first row, unmodified and in the documented order: `return_aws_keys`
yields the (ACCESS_KEY_ID, SECRET_ACCESS_KEY) pair and `return_rds_vars` the
(DB_USER, DB_PASSWD, DB_HOST, DB_PORT, DB_SID) quintuple, with no
transformation, case normalization, or trimming applied. -/
theorem claim_c1 (fs : FileSystem) (p : String) (df : DataFrame)
    (a sk u pw ho prt sid : String) (hfs : fs p = some df) :
    (getCell df "ACCESS_KEY_ID" = .ok a →
     getCell df "SECRET_ACCESS_KEY" = .ok sk →
     (return_aws_keys fs p).fst = .ok [a, sk]) ∧
    (getCell df "DB_USER" = .ok u → getCell df "DB_PASSWD" = .ok pw →
     getCell df "DB_HOST" = .ok ho → getCell df "DB_PORT" = .ok prt →
     getCell df "DB_SID" = .ok sid →
     (return_rds_vars fs p).fst = .ok [u, pw, ho, prt, sid]) := by
  constructor
  · intro h1 h2
    unfold return_aws_keys readCsv
    rw [hfs]
    simp only
    simp [aws_keys_of_df, h1, h2, Bind.bind, Except.bind, Pure.pure, Except.pure]
  · intro h1 h2 h3 h4 h5
    unfold return_rds_vars readCsv
    rw [hfs]
    simp only
    simp [rds_vars_of_df, h1, h2, h3, h4, h5, Bind.bind, Except.bind,
      Pure.pure, Except.pure]

/-- Witness for C1 on the sample files: the extractors return the literal
cell strings, spaces included. -/
theorem claim_c1_witness :
    (return_aws_keys sampleFs "aws_creds.csv").fst =
      .ok ["AKIA_TEST", " secretXYZ "] ∧
    (return_rds_vars sampleFs "rds_creds.csv").fst =
      .ok ["User", "Pass Wd", "db.example.com", "1521", "ORCL"] :=
  ⟨(claim_c1 sampleFs "aws_creds.csv" sampleAwsDf "AKIA_TEST" " secretXYZ "
      "" "" "" "" "" rfl).1 rfl rfl,
   (claim_c1 sampleFs "rds_creds.csv" sampleRdsDf "" "" "User" "Pass Wd"
      "db.example.com" "1521" "ORCL" rfl).2 rfl rfl rfl rfl rfl⟩

/-- C2: whenever the first row provides all five database parameters, the
Engine Resolver's connection string is exactly
`oracle+cx_oracle:// + user + : + passwd + @ + host + / + sid`; the
extracted port does not occur in the construction (the right-hand side does
not depend on `prt`). -/
theorem claim_c2 (fs : FileSystem) (p : String) (u pw ho prt sid : String)
    (h : (return_rds_vars fs p).fst = .ok [u, pw, ho, prt, sid]) :
    (sql_alchemy_engine fs p).fst =
      .ok { uri := "oracle+cx_oracle://" ++ u ++ ":" ++ pw ++
              "@" ++ ho ++ "/" ++ sid } := by
  rcases sql_alchemy_engine_eq fs p with ⟨e, hr, heng⟩ |
    ⟨u', pw', ho', prt', sid', hr, heng⟩
  · rw [hr] at h
    simp at h
  · rw [hr] at h
    simp only at h
    injection h with h
    injection h with h1 h
    injection h with h2 h
    injection h with h3 h
    injection h with h4 h
    injection h with h5 _
    subst h1; subst h2; subst h3; subst h4; subst h5
    rw [heng]

/-- Witness for C2 on the sample RDS file: the URI embeds user, password,
host and SID but not the port 1521. -/
theorem claim_c2_witness :
    (sql_alchemy_engine sampleFs "rds_creds.csv").fst =
      .ok { uri := "oracle+cx_oracle://User:Pass Wd@db.example.com/ORCL" } :=
  claim_c2 sampleFs "rds_creds.csv" "User" "Pass Wd" "db.example.com"
    "1521" "ORCL" rfl

/-- C7: the port value returned by the Database Parameter Extractor is the
literal text of the `DB_PORT` cell of the first data row (the extractor's
result components are strings; no integer parsing is applied, so even the
purely numeric cell 1521 comes back as the text 1521). -/
theorem claim_c7 (fs : FileSystem) (p : String) (l : List String)
    (h : (return_rds_vars fs p).fst = .ok l) :
    ∃ df, fs p = some df ∧ getCell df "DB_PORT" = .ok (l.getD 3 "") := by
  obtain ⟨df, u, pw, ho, prt, sid, hfs, hl, _, _, _, h4, _⟩ :=
    return_rds_vars_ok fs p l h
  subst hl
  exact ⟨df, hfs, h4⟩

/-- Witness for C7: on the sample file the numeric cell 1521 is returned as
the string 1521, the literal text of the `DB_PORT` cell. -/
theorem claim_c7_witness :
    ∃ df, sampleFs "rds_creds.csv" = some df ∧
      getCell df "DB_PORT" =
        .ok (["User", "Pass Wd", "db.example.com", "1521", "ORCL"].getD 3 "") :=
  claim_c7 sampleFs "rds_creds.csv"
    ["User", "Pass Wd", "db.example.com", "1521", "ORCL"] rfl

/-- C10: a successful run of `return_aws_keys` yields a tuple of exactly two
components; the trailing comma in the Python return statement does not add a
third component. -/
theorem claim_c10 (fs : FileSystem) (p : String) (l : List String)
    (h : (return_aws_keys fs p).fst = .ok l) : l.length = 2 := by
  obtain ⟨df, a, sk, _, hl, _, _⟩ := return_aws_keys_ok fs p l h
  subst hl
  rfl

/-- Witness for C10 on the sample AWS file. -/
theorem claim_c10_witness : (["AKIA_TEST", " secretXYZ "] : List String).length = 2 :=
  claim_c10 sampleFs "aws_creds.csv" ["AKIA_TEST", " secretXYZ "] rfl

/-- Cell lookup on a missing column is the field-not-found error. -/
theorem getCell_of_not_mem (df : DataFrame) (c : String) (h : c ∉ df.header) :
    getCell df c = .error (.keyError c) := by
  simp [getCell, h]

/-- Cell lookup on a present column reads the first data row. -/
theorem getCell_ok_of_mem (df : DataFrame) (c : String) (r : List String)
    (rest : List (List String)) (hm : c ∈ df.header) (hr : df.rows = r :: rest) :
    getCell df c = .ok (r.getD (df.header.indexOf c) "") := by
  simp [getCell, hm, hr]

/-- Cell lookup only depends on the header and the first data row. -/
theorem getCell_first_row (hd : List String) (r : List String)
    (rows rows' : List (List String)) (c : String) :
    getCell { header := hd, rows := r :: rows } c =
      getCell { header := hd, rows := r :: rows' } c := by
  by_cases hc : c ∈ hd <;> simp [getCell, hc]

/-- C3 (amended): for every readable credentials file that has at least one
data row and lacks a required column header, the extractor fails with the
field-not-found error naming the first missing required column in its
consultation order, so it never returns a default, empty, or partial
value. -/
theorem claim_c3 (fs : FileSystem) (p : String) (df : DataFrame)
    (hfs : fs p = some df) (hrows : df.rows ≠ []) :
    ("ACCESS_KEY_ID" ∉ df.header →
       (return_aws_keys fs p).fst = .error (.keyError "ACCESS_KEY_ID")) ∧
    ("ACCESS_KEY_ID" ∈ df.header → "SECRET_ACCESS_KEY" ∉ df.header →
       (return_aws_keys fs p).fst = .error (.keyError "SECRET_ACCESS_KEY")) ∧
    ("DB_USER" ∉ df.header →
       (return_rds_vars fs p).fst = .error (.keyError "DB_USER")) ∧
    ("DB_USER" ∈ df.header → "DB_PASSWD" ∉ df.header →
       (return_rds_vars fs p).fst = .error (.keyError "DB_PASSWD")) ∧
    ("DB_USER" ∈ df.header → "DB_PASSWD" ∈ df.header → "DB_HOST" ∉ df.header →
       (return_rds_vars fs p).fst = .error (.keyError "DB_HOST")) ∧
    ("DB_USER" ∈ df.header → "DB_PASSWD" ∈ df.header → "DB_HOST" ∈ df.header →
       "DB_PORT" ∉ df.header →
       (return_rds_vars fs p).fst = .error (.keyError "DB_PORT")) ∧
    ("DB_USER" ∈ df.header → "DB_PASSWD" ∈ df.header → "DB_HOST" ∈ df.header →
       "DB_PORT" ∈ df.header → "DB_SID" ∉ df.header →
       (return_rds_vars fs p).fst = .error (.keyError "DB_SID")) := by
  obtain ⟨r, rest, hr⟩ := List.exists_cons_of_ne_nil hrows
  have haws : (return_aws_keys fs p).fst = aws_keys_of_df df := by
    unfold return_aws_keys readCsv
    rw [hfs]
  have hrds : (return_rds_vars fs p).fst = rds_vars_of_df df := by
    unfold return_rds_vars readCsv
    rw [hfs]
  refine ⟨?_, ?_, ?_, ?_, ?_, ?_, ?_⟩
  · intro h1
    rw [haws]
    simp [aws_keys_of_df, getCell_of_not_mem df _ h1, Bind.bind, Except.bind]
  · intro h1 h2
    rw [haws]
    simp [aws_keys_of_df, getCell_ok_of_mem df _ r rest h1 hr,
      getCell_of_not_mem df _ h2, Bind.bind, Except.bind]
  · intro h1
    rw [hrds]
    simp [rds_vars_of_df, getCell_of_not_mem df _ h1, Bind.bind, Except.bind]
  · intro h1 h2
    rw [hrds]
    simp [rds_vars_of_df, getCell_ok_of_mem df _ r rest h1 hr,
      getCell_of_not_mem df _ h2, Bind.bind, Except.bind]
  · intro h1 h2 h3
    rw [hrds]
    simp [rds_vars_of_df, getCell_ok_of_mem df _ r rest h1 hr,
      getCell_ok_of_mem df _ r rest h2 hr,
      getCell_of_not_mem df _ h3, Bind.bind, Except.bind]
  · intro h1 h2 h3 h4
    rw [hrds]
    simp [rds_vars_of_df, getCell_ok_of_mem df _ r rest h1 hr,
      getCell_ok_of_mem df _ r rest h2 hr, getCell_ok_of_mem df _ r rest h3 hr,
      getCell_of_not_mem df _ h4, Bind.bind, Except.bind]
  · intro h1 h2 h3 h4 h5
    rw [hrds]
    simp [rds_vars_of_df, getCell_ok_of_mem df _ r rest h1 hr,
      getCell_ok_of_mem df _ r rest h2 hr, getCell_ok_of_mem df _ r rest h3 hr,
      getCell_ok_of_mem df _ r rest h4 hr,
      getCell_of_not_mem df _ h5, Bind.bind, Except.bind]

/-- A credentials file with the key column headers absent except
`ACCESS_KEY_ID`, and one data row. -/
def missingColDf : DataFrame :=
  { header := ["ACCESS_KEY_ID"], rows := [["AKIA_TEST"]] }

/-- A file system exposing only `missingColDf`. -/
def missingColFs : FileSystem := fun p =>
  if p = "creds.csv" then some missingColDf else none

/-- Witness for the amended C3: on a one-row file whose header lacks
`SECRET_ACCESS_KEY`, the Key Extractor fails with the field-not-found error
naming that column. -/
theorem claim_c3_witness :
    (return_aws_keys missingColFs "creds.csv").fst =
      .error (.keyError "SECRET_ACCESS_KEY") :=
  (claim_c3 missingColFs "creds.csv" missingColDf rfl (by decide)).2.1
    (by decide) (by decide)

/-- A readable credentials file that lacks the `SECRET_ACCESS_KEY` column
and has no data rows. -/
def headerOnlyDf : DataFrame := { header := ["ACCESS_KEY_ID"], rows := [] }

/-- A file system exposing only `headerOnlyDf`. -/
def headerOnlyFs : FileSystem := fun p =>
  if p = "creds.csv" then some headerOnlyDf else none

/-- Counterexample to C3 as stated: a readable file lacking the required
column `SECRET_ACCESS_KEY` on which the Key Extractor fails with the
index error of the zero-row lookup on the present column `ACCESS_KEY_ID`
(consulted first), not with a field-not-found error. -/
theorem claim_c3_counterexample :
    headerOnlyFs "creds.csv" = some headerOnlyDf ∧
    "SECRET_ACCESS_KEY" ∉ headerOnlyDf.header ∧
    (return_aws_keys headerOnlyFs "creds.csv").fst = .error .indexError ∧
    PyError.isKeyError .indexError = false := by
  refine ⟨rfl, ?_, rfl, rfl⟩
  decide

/-- A file system on which no path is readable. -/
def emptyFs : FileSystem := fun _ => none

/-- C4: for every path that is not a readable file, both extractors and all
three resolvers fail with the file-access error, and the action trace of
each resolver contains no network action. -/
theorem claim_c4 (fs : FileSystem) (p b : String) (h : fs p = none) :
    ((return_aws_keys fs p).fst = .error (.fileAccessError p) ∧
     (return_aws_keys fs p).snd.filter Action.isNetwork = []) ∧
    ((return_rds_vars fs p).fst = .error (.fileAccessError p) ∧
     (return_rds_vars fs p).snd.filter Action.isNetwork = []) ∧
    ((return_bucket fs p b).fst = .error (.fileAccessError p) ∧
     (return_bucket fs p b).snd.filter Action.isNetwork = []) ∧
    ((return_cursor fs p).fst = .error (.fileAccessError p) ∧
     (return_cursor fs p).snd.filter Action.isNetwork = []) ∧
    ((sql_alchemy_engine fs p).fst = .error (.fileAccessError p) ∧
     (sql_alchemy_engine fs p).snd.filter Action.isNetwork = []) := by
  have ha : return_aws_keys fs p = (.error (.fileAccessError p), [.fileRead p]) := by
    unfold return_aws_keys readCsv
    rw [h]
  have hr : return_rds_vars fs p = (.error (.fileAccessError p), [.fileRead p]) := by
    unfold return_rds_vars readCsv
    rw [h]
  refine ⟨⟨?_, ?_⟩, ⟨?_, ?_⟩, ⟨?_, ?_⟩, ⟨?_, ?_⟩, ⟨?_, ?_⟩⟩ <;>
    simp [return_bucket, return_cursor, sql_alchemy_engine, ha, hr,
      List.filter, Action.isNetwork]

/-- Witness for C4 at a file system with no readable file. -/
theorem claim_c4_witness :
    (return_aws_keys emptyFs "no_such_file.csv").fst =
      .error (.fileAccessError "no_such_file.csv") ∧
    (return_bucket emptyFs "no_such_file.csv" "bkt").snd.filter
      Action.isNetwork = [] :=
  ⟨((claim_c4 emptyFs "no_such_file.csv" "bkt" rfl).1).1,
   ((claim_c4 emptyFs "no_such_file.csv" "bkt" rfl).2.2.1).2⟩

/-- C5: in every run of the Bucket, Cursor, or Engine resolver, credential
extraction strictly precedes any network action: if extraction fails, the
resolver propagates that very error and its action trace contains no network
action. -/
theorem claim_c5 (fs : FileSystem) (p b : String) (e : PyError) :
    ((return_aws_keys fs p).fst = .error e →
       (return_bucket fs p b).fst = .error e ∧
       (return_bucket fs p b).snd.filter Action.isNetwork = []) ∧
    ((return_rds_vars fs p).fst = .error e →
       ((return_cursor fs p).fst = .error e ∧
        (return_cursor fs p).snd.filter Action.isNetwork = []) ∧
       ((sql_alchemy_engine fs p).fst = .error e ∧
        (sql_alchemy_engine fs p).snd.filter Action.isNetwork = [])) := by
  constructor
  · intro h
    rcases return_bucket_eq fs p b with ⟨e', hk, hb⟩ | ⟨a, sk, hk, hb⟩
    · rw [hk] at h
      simp only [Except.error.injEq] at h
      subst h
      rw [hb]
      exact ⟨rfl, rfl⟩
    · rw [hk] at h
      simp at h
  · intro h
    constructor
    · rcases return_cursor_eq fs p with ⟨e', hk, hc⟩ |
        ⟨u, pw, ho, prt, sid, hk, hc⟩
      · rw [hk] at h
        simp only [Except.error.injEq] at h
        subst h
        rw [hc]
        exact ⟨rfl, rfl⟩
      · rw [hk] at h
        simp at h
    · rcases sql_alchemy_engine_eq fs p with ⟨e', hk, he⟩ |
        ⟨u, pw, ho, prt, sid, hk, he⟩
      · rw [hk] at h
        simp only [Except.error.injEq] at h
        subst h
        rw [he]
        exact ⟨rfl, rfl⟩
      · rw [hk] at h
        simp at h

/-- Witness for C5: on an unreadable path the extraction failure propagates
and the resolver traces contain no network action. -/
theorem claim_c5_witness :
    (return_bucket emptyFs "c.csv" "bkt").fst =
      .error (.fileAccessError "c.csv") ∧
    (return_cursor emptyFs "c.csv").snd.filter Action.isNetwork = [] :=
  ⟨((claim_c5 emptyFs "c.csv" "bkt" (.fileAccessError "c.csv")).1 rfl).1,
   ((((claim_c5 emptyFs "c.csv" "bkt" (.fileAccessError "c.csv")).2) rfl).1).2⟩

/-- C6: for every credentials file with at least one data row, each
extractor's result is determined by the header and the first data row alone;
any change to the subsequent rows leaves the result unchanged. -/
theorem claim_c6 (fs fs' : FileSystem) (p : String) (hd : List String)
    (r : List String) (rows rows' : List (List String))
    (hfs : fs p = some { header := hd, rows := r :: rows })
    (hfs' : fs' p = some { header := hd, rows := r :: rows' }) :
    (return_aws_keys fs p).fst = (return_aws_keys fs' p).fst ∧
    (return_rds_vars fs p).fst = (return_rds_vars fs' p).fst := by
  have hget := getCell_first_row hd r rows rows'
  constructor
  · unfold return_aws_keys readCsv
    rw [hfs, hfs']
    simp only [aws_keys_of_df]
    simp only [hget]
  · unfold return_rds_vars readCsv
    rw [hfs, hfs']
    simp only [rds_vars_of_df]
    simp only [hget]

/-- The sample RDS credentials file with its second data row removed. -/
def sampleRdsDfOneRow : DataFrame :=
  { header := ["DB_USER", "DB_PASSWD", "DB_HOST", "DB_PORT", "DB_SID"],
    rows := [["User", "Pass Wd", "db.example.com", "1521", "ORCL"]] }

/-- A file system exposing only the one-row sample RDS file. -/
def sampleFsOneRow : FileSystem := fun p =>
  if p = "rds_creds.csv" then some sampleRdsDfOneRow else none

/-- Witness for C6: removing the second data row of the sample RDS file does
not change either extractor's result. -/
theorem claim_c6_witness :
    (return_aws_keys sampleFs "rds_creds.csv").fst =
      (return_aws_keys sampleFsOneRow "rds_creds.csv").fst ∧
    (return_rds_vars sampleFs "rds_creds.csv").fst =
      (return_rds_vars sampleFsOneRow "rds_creds.csv").fst :=
  claim_c6 sampleFs sampleFsOneRow "rds_creds.csv"
    ["DB_USER", "DB_PASSWD", "DB_HOST", "DB_PORT", "DB_SID"]
    ["User", "Pass Wd", "db.example.com", "1521", "ORCL"]
    [["u2", "p2", "h2", "2", "s2"]] [] rfl rfl

/-- C8: every bucket handle returned by `return_bucket` was authenticated
with the key pair read from the `ACCESS_KEY_ID` and `SECRET_ACCESS_KEY`
columns (via the Key Extractor, not the title-case headers of the
function's own docstring), uses path-style addressing
(`OrdinaryCallingFormat`), and names exactly the requested bucket. -/
theorem claim_c8 (fs : FileSystem) (p b : String) (bkt : Bucket)
    (h : (return_bucket fs p b).fst = .ok bkt) :
    (∃ df, fs p = some df ∧
       getCell df "ACCESS_KEY_ID" = .ok bkt.conn.access_key_id ∧
       getCell df "SECRET_ACCESS_KEY" = .ok bkt.conn.secret_access_key) ∧
    bkt.conn.calling_format = "OrdinaryCallingFormat" ∧
    bkt.name = b ∧
    (return_aws_keys fs p).fst =
      .ok [bkt.conn.access_key_id, bkt.conn.secret_access_key] := by
  rcases return_bucket_eq fs p b with ⟨e, hk, hb⟩ | ⟨a, sk, hk, hb⟩
  · rw [hb] at h
    simp at h
  · rw [hb] at h
    simp only [Except.ok.injEq] at h
    subst h
    obtain ⟨df, a', sk', hfs, hl, h1, h2⟩ :=
      return_aws_keys_ok fs p [a, sk] (by rw [hk])
    injection hl with ha hl
    injection hl with hsk _
    subst ha
    subst hsk
    exact ⟨⟨df, hfs, h1, h2⟩, rfl, rfl, by rw [hk]⟩

/-- Witness for C8 on the sample AWS file. -/
theorem claim_c8_witness :
    (∃ df, sampleFs "aws_creds.csv" = some df ∧
       getCell df "ACCESS_KEY_ID" = .ok "AKIA_TEST" ∧
       getCell df "SECRET_ACCESS_KEY" = .ok " secretXYZ ") ∧
    ("OrdinaryCallingFormat" : String) = "OrdinaryCallingFormat" ∧
    ("bkt" : String) = "bkt" ∧
    (return_aws_keys sampleFs "aws_creds.csv").fst =
      .ok ["AKIA_TEST", " secretXYZ "] :=
  claim_c8 sampleFs "aws_creds.csv" "bkt"
    { conn := { access_key_id := "AKIA_TEST",
                secret_access_key := " secretXYZ ",
                calling_format := "OrdinaryCallingFormat" },
      name := "bkt" } rfl

/-- C9: every operation (both extractors and all three resolvers) is
deterministic and stateless across calls.  For each of the five operations,
two sequential calls with the same inputs return equal results and the
combined action trace is the one-call trace repeated: each call re-reads the
credentials file, and each successful resolver call redoes its own
connection action (S3 authentication, Oracle connect, engine creation)
rather than reusing a hidden shared or cached handle. -/
theorem claim_c9 (fs : FileSystem) (p b : String) :
    ((callTwice (fun _ => return_aws_keys fs p)).fst.fst =
       (callTwice (fun _ => return_aws_keys fs p)).fst.snd ∧
     (callTwice (fun _ => return_aws_keys fs p)).snd =
       (return_aws_keys fs p).snd ++ (return_aws_keys fs p).snd ∧
     Action.fileRead p ∈ (return_aws_keys fs p).snd) ∧
    ((callTwice (fun _ => return_rds_vars fs p)).fst.fst =
       (callTwice (fun _ => return_rds_vars fs p)).fst.snd ∧
     (callTwice (fun _ => return_rds_vars fs p)).snd =
       (return_rds_vars fs p).snd ++ (return_rds_vars fs p).snd ∧
     Action.fileRead p ∈ (return_rds_vars fs p).snd) ∧
    ((callTwice (fun _ => return_bucket fs p b)).fst.fst =
       (callTwice (fun _ => return_bucket fs p b)).fst.snd ∧
     (callTwice (fun _ => return_bucket fs p b)).snd =
       (return_bucket fs p b).snd ++ (return_bucket fs p b).snd ∧
     Action.fileRead p ∈ (return_bucket fs p b).snd ∧
     (∀ bkt, (return_bucket fs p b).fst = .ok bkt →
        Action.s3Connect bkt.conn.access_key_id bkt.conn.secret_access_key
          "OrdinaryCallingFormat" ∈ (return_bucket fs p b).snd)) ∧
    ((callTwice (fun _ => return_cursor fs p)).fst.fst =
       (callTwice (fun _ => return_cursor fs p)).fst.snd ∧
     (callTwice (fun _ => return_cursor fs p)).snd =
       (return_cursor fs p).snd ++ (return_cursor fs p).snd ∧
     Action.fileRead p ∈ (return_cursor fs p).snd ∧
     (∀ cur, (return_cursor fs p).fst = .ok cur →
        Action.oracleConnect cur.conn.user cur.conn.passwd cur.conn.dsn ∈
          (return_cursor fs p).snd)) ∧
    ((callTwice (fun _ => sql_alchemy_engine fs p)).fst.fst =
       (callTwice (fun _ => sql_alchemy_engine fs p)).fst.snd ∧
     (callTwice (fun _ => sql_alchemy_engine fs p)).snd =
       (sql_alchemy_engine fs p).snd ++ (sql_alchemy_engine fs p).snd ∧
     Action.fileRead p ∈ (sql_alchemy_engine fs p).snd ∧
     (∀ eng, (sql_alchemy_engine fs p).fst = .ok eng →
        Action.createEngine eng.uri ∈ (sql_alchemy_engine fs p).snd)) := by
  refine ⟨⟨rfl, rfl, ?_⟩, ⟨rfl, rfl, ?_⟩, ⟨rfl, rfl, ?_, ?_⟩,
    ⟨rfl, rfl, ?_, ?_⟩, ⟨rfl, rfl, ?_, ?_⟩⟩
  · rw [return_aws_keys_snd]
    simp
  · rw [return_rds_vars_snd]
    simp
  · rcases return_bucket_eq fs p b with ⟨e, _, hb⟩ | ⟨a, sk, _, hb⟩ <;>
      rw [hb] <;> simp
  · intro bkt h
    rcases return_bucket_eq fs p b with ⟨e, _, hb⟩ | ⟨a, sk, _, hb⟩
    · rw [hb] at h
      simp at h
    · rw [hb] at h ⊢
      simp only [Except.ok.injEq] at h
      subst h
      simp
  · rcases return_cursor_eq fs p with ⟨e, _, hc⟩ |
      ⟨u, pw, ho, prt, sid, _, hc⟩ <;> rw [hc] <;> simp
  · intro cur h
    rcases return_cursor_eq fs p with ⟨e, _, hc⟩ |
      ⟨u, pw, ho, prt, sid, _, hc⟩
    · rw [hc] at h
      simp at h
    · rw [hc] at h ⊢
      simp only [Except.ok.injEq] at h
      subst h
      simp
  · rcases sql_alchemy_engine_eq fs p with ⟨e, _, he⟩ |
      ⟨u, pw, ho, prt, sid, _, he⟩ <;> rw [he] <;> simp
  · intro eng h
    rcases sql_alchemy_engine_eq fs p with ⟨e, _, he⟩ |
      ⟨u, pw, ho, prt, sid, _, he⟩
    · rw [he] at h
      simp at h
    · rw [he] at h ⊢
      simp only [Except.ok.injEq] at h
      subst h
      simp

/-- Witness for C9 on the sample files: determinism of repeated extraction,
the per-call file read, and each resolver's own connection action (S3
authentication, Oracle connect, engine creation) at the concretely resolved
handles. -/
theorem claim_c9_witness :
    (callTwice (fun _ => return_aws_keys sampleFs "aws_creds.csv")).fst.fst =
      (callTwice (fun _ => return_aws_keys sampleFs "aws_creds.csv")).fst.snd ∧
    Action.fileRead "aws_creds.csv" ∈
      (return_aws_keys sampleFs "aws_creds.csv").snd ∧
    Action.fileRead "rds_creds.csv" ∈
      (return_rds_vars sampleFs "rds_creds.csv").snd ∧
    Action.s3Connect "AKIA_TEST" " secretXYZ " "OrdinaryCallingFormat" ∈
      (return_bucket sampleFs "aws_creds.csv" "bkt").snd ∧
    Action.oracleConnect "User" "Pass Wd"
        { host := "db.example.com", port := "1521", sid := "ORCL" } ∈
      (return_cursor sampleFs "rds_creds.csv").snd ∧
    Action.createEngine "oracle+cx_oracle://User:Pass Wd@db.example.com/ORCL" ∈
      (sql_alchemy_engine sampleFs "rds_creds.csv").snd :=
  ⟨(claim_c9 sampleFs "aws_creds.csv" "bkt").1.1,
   (claim_c9 sampleFs "aws_creds.csv" "bkt").1.2.2,
   (claim_c9 sampleFs "rds_creds.csv" "bkt").2.1.2.2,
   (claim_c9 sampleFs "aws_creds.csv" "bkt").2.2.1.2.2.2
     { conn := { access_key_id := "AKIA_TEST",
                 secret_access_key := " secretXYZ ",
                 calling_format := "OrdinaryCallingFormat" },
       name := "bkt" } rfl,
   (claim_c9 sampleFs "rds_creds.csv" "bkt").2.2.2.1.2.2.2
     { conn := { user := "User", passwd := "Pass Wd",
                 dsn := { host := "db.example.com", port := "1521",
                          sid := "ORCL" } } } rfl,
   (claim_c9 sampleFs "rds_creds.csv" "bkt").2.2.2.2.2.2.2
     { uri := "oracle+cx_oracle://User:Pass Wd@db.example.com/ORCL" } rfl⟩

end FetchCreds
